import Mathlib

/-
Shallow embedding of the WebsocketClient of src/lib/websocket.js
(cexio-exchange-plus). Each definition below mirrors one method or
callback of the class. Mutable private fields of the class become the
fields of ClientState; observable actions (settling a pending promise,
sending a frame, logging, invoking a handler, an uncaught throw) become
an explicit list of effects returned next to the updated state.
-/

namespace Cexio

/-- JavaScript values as far as this client inspects them: primitives plus
objects encoded as key-value chains (objCons key value rest, ending in
objNil), which is enough for the frames this protocol exchanges. -/
inductive JSVal where
  | undef : JSVal
  | null : JSVal
  | bool : Bool → JSVal
  | num : Int → JSVal
  | str : String → JSVal
  | objNil : JSVal
  | objCons : String → JSVal → JSVal → JSVal
  deriving DecidableEq, Repr

/-- JavaScript truthiness: undefined, null, false, 0 and the empty string
are falsy; every other value, including the empty object, is truthy. -/
def isTruthy : JSVal → Bool
  | JSVal.undef => false
  | JSVal.null => false
  | JSVal.bool b => b
  | JSVal.num n => n != 0
  | JSVal.str s => s != ""
  | JSVal.objNil => true
  | JSVal.objCons _ _ _ => true

/-- Property read v.key on a JavaScript value: first matching key of an
object, undefined otherwise (and undefined on non-objects). -/
def jsGet : JSVal → String → JSVal
  | JSVal.objCons k v rest, key => if k = key then v else jsGet rest key
  | _, _ => JSVal.undef

/-- String coercion used by template literals and property keys. -/
def jsToStr : JSVal → String
  | JSVal.undef => "undefined"
  | JSVal.null => "null"
  | JSVal.bool b => if b then "true" else "false"
  | JSVal.num n => toString n
  | JSVal.str s => s
  | JSVal.objNil => "[object Object]"
  | JSVal.objCons _ _ _ => "[object Object]"

/-- The JavaScript expression a || b. -/
def jsOr (a b : JSVal) : JSVal := if isTruthy a then a else b

/-- A decoded inbound message, with the fields this client reads; a field
the frame does not carry is undefined. -/
structure Frame where
  e : JSVal := JSVal.undef
  oid : JSVal := JSVal.undef
  ok : JSVal := JSVal.undef
  data : JSVal := JSVal.undef
  deriving DecidableEq, Repr

/-- How a pending promise gets rejected in this client: with a thrown
Error carrying a message, with the cancellation object built by
cancelOidReply and cancelAllOidReplies, or with a plain value
(handleOidReply rejects with message.data.error, the send callback of
callRequest was meant to reject with the send error). -/
inductive Rejection where
  | jsError : String → Rejection
  | cancelObj : String → JSVal → Bool → Rejection
  | value : JSVal → Rejection
  deriving DecidableEq, Repr

/-- The outcome delivered to a pending call promise. -/
inductive Settle where
  | resolved : JSVal → Settle
  | rejected : Rejection → Settle
  deriving DecidableEq, Repr

/-- Observable actions of one operation of the client. -/
inductive Effect where
  | settle : String → Settle → Effect
  | sendFrame : JSVal → Effect
  | invokeHandler : String → Frame → Effect
  | log : String → Effect
  | jsThrow : String → Effect
  | connectResolve : Effect
  | connectReject : Rejection → Effect
  | fireUserCallback : String → Effect
  deriving DecidableEq, Repr

/-- The mutable private fields of WebsocketClient. The registry
waitForResp keeps the oids of the pending defers (the object keys; the
defers themselves are observed through settle effects). waitTimers maps
an oid to its timer handle; the Bool records whether that timer is still
armed: clearTimeout disarms a timer but, as in the source, never removes
its key. socketOpen captures that the socket exists and its readyState
is OPEN. -/
structure ClientState where
  apiKey : String := ""
  apiSecret : String := ""
  oidSeqId : Nat := 0
  handlers : List String := []
  waitForResp : List String := []
  waitTimers : List (String × Bool) := []
  isAuthorized : Bool := false
  isPublicClient : Bool := false
  socketOpen : Bool := false
  deriving DecidableEq, Repr

/-- waitTimers lookup by key, mirroring object indexing. -/
def lookupTimer : List (String × Bool) → String → Option Bool
  | [], _ => none
  | (k, b) :: rest, oid => if k = oid then some b else lookupTimer rest oid

/-- waitTimers[oid] = setTimeout(...): store an armed timer under oid. -/
def setTimer : List (String × Bool) → String → List (String × Bool)
  | [], oid => [(oid, true)]
  | (k, b) :: rest, oid =>
      if k = oid then (k, true) :: rest else (k, b) :: setTimer rest oid

/-- clearTimeout(waitTimers[oid]): disarm the timer stored under oid,
leaving the key in place; a no-op when no timer was stored. -/
def clearTimer : List (String × Bool) → String → List (String × Bool)
  | [], _ => []
  | (k, b) :: rest, oid =>
      if k = oid then (k, false) :: rest else (k, b) :: clearTimer rest oid

/-- The timer stored under oid exists and has not been cleared. -/
def timerArmed (st : ClientState) (oid : String) : Prop :=
  lookupTimer st.waitTimers oid = some true

instance (st : ClientState) (oid : String) : Decidable (timerArmed st oid) := by
  unfold timerArmed; infer_instance

/-- Method handleOidReply: a reply carrying an oid. If no defer waits
under that oid, log and return; otherwise delete the entry, clear its
timer, and resolve with message.data when message.ok is the string ok,
else reject with message.data.error. -/
def handleOidReply (st : ClientState) (m : Frame) : ClientState × List Effect :=
  let oid := jsToStr m.oid
  if oid ∈ st.waitForResp then
    let st1 : ClientState :=
      { st with waitForResp := st.waitForResp.erase oid,
                waitTimers := clearTimer st.waitTimers oid }
    if m.ok = JSVal.str ("ok") then
      (st1, [Effect.settle oid (Settle.resolved m.data)])
    else
      (st1, [Effect.settle oid (Settle.rejected (Rejection.value (jsGet m.data ("error"))))])
  else
    (st, [Effect.log ("Got message from server with oid but without handler on client side.")])

/-- One iteration of the forEach of cancelAllOidReplies, applied to the
snapshot of the registry keys: reject the defer with the cancellation
object, delete the entry, clear its timer. -/
def cancelAllLoop : List String → ClientState → JSVal → ClientState × List Effect
  | [], st, _ => (st, [])
  | oid :: rest, st, err =>
      let eff := Effect.settle oid (Settle.rejected
        (Rejection.cancelObj oid (jsOr err (JSVal.str ("connection closed"))) true))
      let st1 : ClientState :=
        { st with waitForResp := st.waitForResp.erase oid,
                  waitTimers := clearTimer st.waitTimers oid }
      let next := cancelAllLoop rest st1 err
      (next.1, eff :: next.2)

/-- Method cancelAllOidReplies: iterate over the keys of waitForResp,
rejecting each pending defer, deleting each entry and clearing each
timer. -/
def cancelAllOidReplies (st : ClientState) (err : JSVal) : ClientState × List Effect :=
  cancelAllLoop st.waitForResp st err

/-- Method cancelOidReply: if a defer waits under oid, reject it with
the cancellation object carrying oid and reason and delete the entry;
independently, if a timer handle is stored under oid, clear it. -/
def cancelOidReply (st : ClientState) (oid : String) (reason : String) :
    ClientState × List Effect :=
  let step1 : ClientState × List Effect :=
    if oid ∈ st.waitForResp then
      ({ st with waitForResp := st.waitForResp.erase oid },
       [Effect.settle oid (Settle.rejected (Rejection.cancelObj oid (JSVal.str reason) true))])
    else
      (st, [])
  if (lookupTimer step1.1.waitTimers oid).isSome then
    ({ step1.1 with waitTimers := clearTimer step1.1.waitTimers oid }, step1.2)
  else
    step1

/-- The closure passed to setTimeout in callRequest: cancelOidReply with
reason request timeout. -/
def timerFire (st : ClientState) (oid : String) : ClientState × List Effect :=
  cancelOidReply st oid ("request timeout")

/-- Method handleMessage, after JSON.parse: log the message; route to a
registered handler under message.e if one exists, else to handleOidReply
when message.oid is truthy, else drop a pong silently, else log and
drop. Handler bodies run outside this router and are modelled as their
own operations. -/
def handleMessage (st : ClientState) (m : Frame) : ClientState × List Effect :=
  let pre := Effect.log ("incoming message:")
  if jsToStr m.e ∈ st.handlers then
    (st, [pre, Effect.invokeHandler (jsToStr m.e) m])
  else if isTruthy m.oid then
    let r := handleOidReply st m
    (r.1, pre :: r.2)
  else if m.e = JSVal.str ("pong") then
    (st, [pre])
  else
    (st, [pre, Effect.log ("Ignoring ws message because of unknown message format")])

/-- Method addHandler / subscribe: register the event name (a later
registration for the same name replaces the callback; the set of
registered names gains the name). -/
def addHandler (hs : List String) (event : String) : List String :=
  if event ∈ hs then hs else hs ++ [event]

/-- Method subscribe on the state. -/
def subscribeOp (st : ClientState) (event : String) : ClientState :=
  { st with handlers := addHandler st.handlers event }

/-- Method createSignature: the hex digest of HMAC-SHA256 keyed by
apiSecret over the concatenation of the timestamp rendering and the api
key. hmacSha256Hex abstracts crypto.createHmac sha256 with key and
message. -/
def createSignature (hmacSha256Hex : String → String → String)
    (st : ClientState) (timestamp : String) : String :=
  hmacSha256Hex st.apiSecret (timestamp ++ st.apiKey)

/-- The auth frame built and sent by method auth. -/
def authFrame (hmacSha256Hex : String → String → String)
    (st : ClientState) (tsv : JSVal) : JSVal :=
  JSVal.objCons ("e") (JSVal.str ("auth"))
    (JSVal.objCons ("auth")
      (JSVal.objCons ("key") (JSVal.str st.apiKey)
        (JSVal.objCons ("signature")
          (JSVal.str (createSignature hmacSha256Hex st (jsToStr tsv)))
          (JSVal.objCons ("timestamp") tsv JSVal.objNil)))
      (JSVal.objCons ("oid") (JSVal.str ("auth")) JSVal.objNil))

/-- Method auth up to the send: reject the connect promise when the
socket is not open; otherwise register the auth handler, compute the
signature over timestamp and key, and send the auth frame. tsv is the
value Date.now() / 1000. -/
def authStart (hmacSha256Hex : String → String → String)
    (st : ClientState) (tsv : JSVal) : ClientState × List Effect :=
  if st.socketOpen = false then
    (st, [Effect.connectReject (Rejection.jsError ("Client is not connected"))])
  else
    ({ st with handlers := addHandler st.handlers ("auth") },
     [Effect.sendFrame (authFrame hmacSha256Hex st tsv)])

/-- The auth reply callback registered by method auth: on data.ok being
the string ok, mark the session authorized and resolve connect;
otherwise reject connect with the server error message. -/
def authReplyHandler (st : ClientState) (authRes : Frame) : ClientState × List Effect :=
  if isTruthy (jsGet authRes.data ("ok")) = true
      ∧ jsGet authRes.data ("ok") = JSVal.str ("ok") then
    ({ st with isAuthorized := true }, [Effect.connectResolve])
  else
    (st, [Effect.connectReject (Rejection.jsError
      ("Authorization failure: " ++ jsToStr (jsGet authRes.data ("error"))))])

/-- Method callRequest: throw Not connected when the socket is not open;
otherwise generate the oid from the clock, the incremented sequence id
and the method name, register a defer and an armed timer under it, and
send the request frame. Returns the registered oid on success. -/
def callRequest (st : ClientState) (now : Nat) (method : String) (params : JSVal) :
    ClientState × List Effect × Except String String :=
  if st.socketOpen = false then
    (st, [], Except.error ("Not connected"))
  else
    let seq := st.oidSeqId + 1
    let oid := toString now ++ toString seq ++ "_" ++ method
    let st1 : ClientState :=
      { st with oidSeqId := seq,
                waitForResp := st.waitForResp ++ [oid],
                waitTimers := setTimer st.waitTimers oid }
    let msg := JSVal.objCons ("e") (JSVal.str method)
      (JSVal.objCons ("data") params
        (JSVal.objCons ("oid") (JSVal.str oid) JSVal.objNil))
    (st1, [Effect.log ("sending message:"), Effect.sendFrame msg], Except.ok oid)

/-- The callback passed to socket.send in callRequest, invoked by the
transport with the send error. On a truthy error the source deletes the
waitForResp entry first and only then reads waitForResp[oid] to call
reject on it: that read yields undefined and the reject call throws a
TypeError, so the defer is never settled and the timer is left armed. -/
def sendErrCallback (st : ClientState) (oid : String) (err : JSVal) :
    ClientState × List Effect :=
  if isTruthy err then
    let st1 : ClientState := { st with waitForResp := st.waitForResp.erase oid }
    if oid ∈ st1.waitForResp then
      (st1, [Effect.settle oid (Settle.rejected (Rejection.value err))])
    else
      (st1, [Effect.jsThrow ("TypeError: cannot read reject of undefined")])
  else
    (st, [])

/-- Method callPublic: throw on a private client, else callRequest. -/
def callPublic (st : ClientState) (now : Nat) (method : String) (params : JSVal) :
    ClientState × List Effect × Except String String :=
  if st.isPublicClient = false then
    (st, [], Except.error ("Attempt to call public method on private client"))
  else
    callRequest st now method params

/-- Method callPrivate: throw on a public client, then throw when not
authorized, else callRequest. -/
def callPrivate (st : ClientState) (now : Nat) (method : String) (params : JSVal) :
    ClientState × List Effect × Except String String :=
  if st.isPublicClient = true then
    (st, [], Except.error ("Attempt to call private method on public client"))
  else if st.isAuthorized = false then
    (st, [], Except.error ("Not authorized"))
  else
    callRequest st now method params

/-- The socket close listener installed by connect: drop the socket,
clear the authorized flag, cancel every pending call with the close
reason, reject the connect promise, fire the user onClose callback. -/
def onSocketClose (st : ClientState) (err : JSVal) : ClientState × List Effect :=
  let st1 : ClientState := { st with socketOpen := false, isAuthorized := false }
  let r := cancelAllOidReplies st1 err
  (r.1, r.2 ++ [Effect.connectReject (Rejection.value err), Effect.fireUserCallback ("onClose")])

/-- The socket error listener installed by connect: drop the socket and
cancel every pending call with the error; unlike the close listener it
does not clear the authorized flag. -/
def onSocketError (st : ClientState) (err : JSVal) : ClientState × List Effect :=
  let st1 : ClientState := { st with socketOpen := false }
  let r := cancelAllOidReplies st1 err
  (r.1, r.2 ++ [Effect.connectReject (Rejection.value err), Effect.fireUserCallback ("onError")])

/-- The handler connect registers for the reserved disconnected event:
clear the authorized flag and cancel every pending call. -/
def onDisconnectedEvent (st : ClientState) : ClientState × List Effect :=
  cancelAllOidReplies { st with isAuthorized := false }
    (JSVal.str ("disconnected from server"))

/-- The constructor: a client is public exactly when invoked with one
argument, in which case that argument is taken as the options object.
Credentials are modelled through their string coercion. -/
def mkClient (args : List JSVal) : ClientState :=
  { apiKey := jsToStr (args.getD 0 JSVal.undef),
    apiSecret := jsToStr (args.getD 1 JSVal.undef),
    oidSeqId := 0,
    handlers := [],
    waitForResp := [],
    waitTimers := [],
    isAuthorized := false,
    isPublicClient := args.length == 1,
    socketOpen := false }

/-- The options value the constructor merges over the defaults: the sole
argument when called with one argument, else the third argument when
present, else the empty object default. -/
def ctorOptions (args : List JSVal) : JSVal :=
  if args.length = 1 then args.getD 0 JSVal.undef
  else args.getD 2 JSVal.objNil

/-- The state-mutating entry points of the client, for reasoning over
whole operation sequences: the request path shared by callPublic and
callPrivate, an inbound message, a timer firing, the transport close and
error listeners, the send error callback, subscribe, the auth send and
its reply handler, and the reserved disconnected handler. ping reads the
socket and sends but never touches the registry or the timers. -/
inductive Op where
  | request : Nat → String → JSVal → Op
  | publicCall : Nat → String → JSVal → Op
  | privateCall : Nat → String → JSVal → Op
  | inbound : Frame → Op
  | timer : String → Op
  | sockClose : JSVal → Op
  | sockError : JSVal → Op
  | sendErr : String → JSVal → Op
  | subscribeEv : String → Op
  | authSend : JSVal → Op
  | authReply : Frame → Op
  | disconnectedEv : Op
  | pingOp : Op

/-- The state transition of one entry point. -/
def step (hmacSha256Hex : String → String → String) (st : ClientState) : Op → ClientState
  | Op.request now method params => (callRequest st now method params).1
  | Op.publicCall now method params => (callPublic st now method params).1
  | Op.privateCall now method params => (callPrivate st now method params).1
  | Op.inbound m => (handleMessage st m).1
  | Op.timer oid => (timerFire st oid).1
  | Op.sockClose e => (onSocketClose st e).1
  | Op.sockError e => (onSocketError st e).1
  | Op.sendErr oid e => (sendErrCallback st oid e).1
  | Op.subscribeEv ev => subscribeOp st ev
  | Op.authSend tsv => (authStart hmacSha256Hex st tsv).1
  | Op.authReply m => (authReplyHandler st m).1
  | Op.disconnectedEv => (onDisconnectedEvent st).1
  | Op.pingOp => st

/-- Run a sequence of entry points. -/
def runOps (hmacSha256Hex : String → String → String)
    (st : ClientState) : List Op → ClientState
  | [] => st
  | op :: rest => runOps hmacSha256Hex (step hmacSha256Hex st op) rest

/-- The key set of the timer map. -/
def timerKeys (st : ClientState) : List String := st.waitTimers.map Prod.fst

/-- How many settle effects a list of effects delivers to a given oid. -/
def settlesFor (effs : List Effect) (oid : String) : Nat :=
  effs.countP (fun e =>
    match e with
    | Effect.settle o _ => o == oid
    | _ => false)

lemma clearTimer_map_fst (t : List (String × Bool)) (k : String) :
    (clearTimer t k).map Prod.fst = t.map Prod.fst := by
  induction t with
  | nil => rfl
  | cons hd tl ih =>
      obtain ⟨a, b⟩ := hd
      by_cases h : a = k
      · simp [clearTimer, h]
      · simp [clearTimer, h, ih]

lemma setTimer_map_fst_mem (t : List (String × Bool)) (k k2 : String)
    (h : k2 ∈ t.map Prod.fst) : k2 ∈ (setTimer t k).map Prod.fst := by
  induction t with
  | nil => cases h
  | cons hd tl ih =>
      obtain ⟨a, b⟩ := hd
      rw [List.map_cons, List.mem_cons] at h
      by_cases hak : a = k
      · rw [show setTimer ((a, b) :: tl) k = (a, true) :: tl from by simp [setTimer, hak]]
        rw [List.map_cons, List.mem_cons]
        exact h
      · rw [show setTimer ((a, b) :: tl) k = (a, b) :: setTimer tl k from by
          simp [setTimer, hak]]
        rw [List.map_cons, List.mem_cons]
        rcases h with h1 | h1
        · exact Or.inl h1
        · exact Or.inr (ih h1)

lemma clearTimer_self_not_armed (t : List (String × Bool)) (k : String) :
    lookupTimer (clearTimer t k) k ≠ some true := by
  induction t with
  | nil => simp [clearTimer, lookupTimer]
  | cons hd tl ih =>
      obtain ⟨a, b⟩ := hd
      by_cases h : a = k
      · simp [clearTimer, h, lookupTimer]
      · simp [clearTimer, h, lookupTimer, ih]

lemma clearTimer_preserves_not_armed (t : List (String × Bool)) (k k2 : String)
    (h : lookupTimer t k2 ≠ some true) :
    lookupTimer (clearTimer t k) k2 ≠ some true := by
  induction t with
  | nil => simpa [clearTimer] using h
  | cons hd tl ih =>
      obtain ⟨a, b⟩ := hd
      by_cases hak : a = k
      · rw [show clearTimer ((a, b) :: tl) k = (a, false) :: tl from by
          simp [clearTimer, hak]]
        by_cases h2 : a = k2
        · simp [lookupTimer, h2]
        · have h3 : lookupTimer tl k2 ≠ some true := by
            simpa [lookupTimer, h2] using h
          simpa [lookupTimer, h2] using h3
      · rw [show clearTimer ((a, b) :: tl) k = (a, b) :: clearTimer tl k from by
          simp [clearTimer, hak]]
        by_cases h2 : a = k2
        · simpa [lookupTimer, h2] using h
        · have h3 : lookupTimer tl k2 ≠ some true := by
            simpa [lookupTimer, h2] using h
          simpa [lookupTimer, h2] using ih h3

lemma cancelAllLoop_effects (l : List String) (st : ClientState) (err : JSVal) :
    (cancelAllLoop l st err).2 = l.map (fun oid =>
      Effect.settle oid (Settle.rejected (Rejection.cancelObj oid
        (jsOr err (JSVal.str ("connection closed"))) true))) := by
  induction l generalizing st with
  | nil => rfl
  | cons hd tl ih => simp [cancelAllLoop, ih]

lemma cancelAllLoop_empties (l : List String) (st : ClientState) (err : JSVal)
    (h : st.waitForResp = l) :
    (cancelAllLoop l st err).1.waitForResp = [] := by
  induction l generalizing st with
  | nil => simpa [cancelAllLoop] using h
  | cons hd tl ih =>
      apply ih
      simp [h, List.erase_cons_head]

lemma cancelAllLoop_timerKeys (l : List String) (st : ClientState) (err : JSVal) :
    (cancelAllLoop l st err).1.waitTimers.map Prod.fst = st.waitTimers.map Prod.fst := by
  induction l generalizing st with
  | nil => rfl
  | cons hd tl ih =>
      simpa [cancelAllLoop] using
        (ih { st with waitForResp := st.waitForResp.erase hd,
                      waitTimers := clearTimer st.waitTimers hd }).trans
          (clearTimer_map_fst st.waitTimers hd)

lemma cancelAllLoop_preserves_not_armed (l : List String) (st : ClientState)
    (err : JSVal) (oid : String)
    (h : lookupTimer st.waitTimers oid ≠ some true) :
    lookupTimer (cancelAllLoop l st err).1.waitTimers oid ≠ some true := by
  induction l generalizing st with
  | nil => simpa [cancelAllLoop] using h
  | cons hd tl ih =>
      exact ih _ (clearTimer_preserves_not_armed st.waitTimers hd oid h)

lemma cancelAllLoop_not_armed (l : List String) (st : ClientState)
    (err : JSVal) (oid : String) (h : oid ∈ l) :
    lookupTimer (cancelAllLoop l st err).1.waitTimers oid ≠ some true := by
  induction l generalizing st with
  | nil => cases h
  | cons hd tl ih =>
      rcases List.mem_cons.mp h with h1 | h1
      · subst h1
        exact cancelAllLoop_preserves_not_armed tl _ err oid
          (clearTimer_self_not_armed st.waitTimers oid)
      · exact ih _ h1

lemma cancelAllLoop_isAuthorized (l : List String) (st : ClientState) (err : JSVal) :
    (cancelAllLoop l st err).1.isAuthorized = st.isAuthorized := by
  induction l generalizing st with
  | nil => rfl
  | cons hd tl ih => simpa [cancelAllLoop] using ih _

lemma cancelAllLoop_socketOpen (l : List String) (st : ClientState) (err : JSVal) :
    (cancelAllLoop l st err).1.socketOpen = st.socketOpen := by
  induction l generalizing st with
  | nil => rfl
  | cons hd tl ih => simpa [cancelAllLoop] using ih _

lemma cancelOidReply_mem (st : ClientState) (oid reason : String)
    (hmem : oid ∈ st.waitForResp) :
    (cancelOidReply st oid reason).1.waitForResp = st.waitForResp.erase oid
    ∧ (cancelOidReply st oid reason).2
        = [Effect.settle oid (Settle.rejected
            (Rejection.cancelObj oid (JSVal.str reason) true))] := by
  unfold cancelOidReply
  by_cases hk : (lookupTimer st.waitTimers oid).isSome
  · simp [hmem, hk]
  · simp [hmem, hk]

/-- A client with one pending call, its armed timer, and an open socket:
the state right after callRequest has registered a request. -/
def stPend : ClientState :=
  { waitForResp := ["171_get_ticker"],
    waitTimers := [("171_get_ticker", true)],
    socketOpen := true }

/-- C1: evaluation of the send error callback of callRequest at a state
holding the pending call it belongs to. The source deletes
waitForResp[oid] first and then reads the deleted entry to reject it, so
the callback throws instead of rejecting: the registry entry is gone,
no settle reaches the pending promise, and the timer is still armed,
contradicting the claim that the call is rejected with the send error
and its timer cancelled. -/
theorem c1_send_error_leaves_timer_and_never_rejects :
    (sendErrCallback stPend ("171_get_ticker") (JSVal.str ("send failed"))).1.waitForResp = []
    ∧ (sendErrCallback stPend ("171_get_ticker") (JSVal.str ("send failed"))).2
        = [Effect.jsThrow ("TypeError: cannot read reject of undefined")]
    ∧ lookupTimer (sendErrCallback stPend ("171_get_ticker")
        (JSVal.str ("send failed"))).1.waitTimers ("171_get_ticker") = some true := by
  exact ⟨rfl, rfl, rfl⟩

/-- C2: when a pending call's timer fires, the timeout path rejects the
call with the cancellation object carrying its oid and the reason
request timeout, removes the oid from the registry, and a reply arriving
for that oid afterwards is only logged: no second outcome is delivered
and the state is unchanged. -/
theorem c2_timeout_rejects_then_drops_late_reply (st : ClientState) (oid : String)
    (hmem : oid ∈ st.waitForResp) (hnd : st.waitForResp.Nodup) :
    (timerFire st oid).2 = [Effect.settle oid (Settle.rejected
        (Rejection.cancelObj oid (JSVal.str ("request timeout")) true))]
    ∧ oid ∉ (timerFire st oid).1.waitForResp
    ∧ ∀ m : Frame, jsToStr m.oid = oid →
        handleOidReply (timerFire st oid).1 m
          = ((timerFire st oid).1,
             [Effect.log ("Got message from server with oid but without handler on client side.")]) := by
  obtain ⟨hw, he⟩ := cancelOidReply_mem st oid ("request timeout") hmem
  have hnot : oid ∉ (timerFire st oid).1.waitForResp := by
    rw [timerFire, hw]
    exact hnd.not_mem_erase
  refine ⟨he, hnot, ?_⟩
  intro m hm
  rw [handleOidReply, hm, if_neg hnot]

/-- A client with two pending calls and their armed timers. -/
def stTwo : ClientState :=
  { waitForResp := ["18_a", "19_b"],
    waitTimers := [("18_a", true), ("19_b", true)],
    socketOpen := true }

theorem c2_witness :
    (timerFire stTwo ("18_a")).2 = [Effect.settle ("18_a") (Settle.rejected
        (Rejection.cancelObj ("18_a") (JSVal.str ("request timeout")) true))]
    ∧ "18_a" ∉ (timerFire stTwo ("18_a")).1.waitForResp
    ∧ handleOidReply (timerFire stTwo ("18_a")).1 { oid := JSVal.str ("18_a") }
        = ((timerFire stTwo ("18_a")).1,
           [Effect.log ("Got message from server with oid but without handler on client side.")]) := by
  have h := c2_timeout_rejects_then_drops_late_reply stTwo ("18_a") (by decide) (by decide)
  exact ⟨h.1, h.2.1, h.2.2 { oid := JSVal.str ("18_a") } rfl⟩

/-- C3: cancelAllOidReplies rejects every pending call, each exactly
once, with the cancellation object carrying the closing reason (or the
connection closed default when the reason is falsy), clears every
associated timer, and leaves the registry empty; it is a no-op on an
empty registry; and both transport listeners, close and error, leave
the registry empty. -/
theorem c3_cancel_all_rejects_each_once (st : ClientState) (err : JSVal)
    (hnd : st.waitForResp.Nodup) :
    (cancelAllOidReplies st err).2 = st.waitForResp.map (fun oid =>
        Effect.settle oid (Settle.rejected (Rejection.cancelObj oid
          (jsOr err (JSVal.str ("connection closed"))) true)))
    ∧ (∀ oid ∈ st.waitForResp, settlesFor (cancelAllOidReplies st err).2 oid = 1)
    ∧ (cancelAllOidReplies st err).1.waitForResp = []
    ∧ (∀ oid ∈ st.waitForResp, ¬ timerArmed (cancelAllOidReplies st err).1 oid)
    ∧ (st.waitForResp = [] → cancelAllOidReplies st err = (st, []))
    ∧ (onSocketClose st err).1.waitForResp = []
    ∧ (onSocketError st err).1.waitForResp = [] := by
  have heff := cancelAllLoop_effects st.waitForResp st err
  refine ⟨heff, ?_, ?_, ?_, ?_, ?_, ?_⟩
  · intro oid hm
    show settlesFor (cancelAllLoop st.waitForResp st err).2 oid = 1
    rw [heff]
    unfold settlesFor
    rw [List.countP_map]
    have hcount : st.waitForResp.count oid = 1 :=
      List.count_eq_one_of_mem hnd hm
    simpa [List.count, Function.comp] using hcount
  · exact cancelAllLoop_empties st.waitForResp st err rfl
  · intro oid hm
    exact cancelAllLoop_not_armed st.waitForResp st err oid hm
  · intro h
    show cancelAllLoop st.waitForResp st err = (st, [])
    rw [h]
    rfl
  · show (cancelAllLoop _ _ err).1.waitForResp = []
    exact cancelAllLoop_empties _ _ err rfl
  · show (cancelAllLoop _ _ err).1.waitForResp = []
    exact cancelAllLoop_empties _ _ err rfl

theorem c3_witness :
    (cancelAllOidReplies stTwo (JSVal.str ("socket hang up"))).1.waitForResp = []
    ∧ settlesFor (cancelAllOidReplies stTwo (JSVal.str ("socket hang up"))).2 ("19_b") = 1
    ∧ ¬ timerArmed (cancelAllOidReplies stTwo (JSVal.str ("socket hang up"))).1 ("19_b") := by
  have h := c3_cancel_all_rejects_each_once stTwo (JSVal.str ("socket hang up")) (by decide)
  exact ⟨h.2.2.1, h.2.1 ("19_b") (by decide), h.2.2.2.1 ("19_b") (by decide)⟩

/-- A private client that completed the handshake on an open socket. -/
def stAuthOpen : ClientState :=
  { isPublicClient := false, isAuthorized := true, socketOpen := true }

/-- C4 counterexample: a private session that was authorized and whose
transport then left the open state through the close path does not fail
callPrivate with Not connected: the close listener clears the authorized
flag, and the authorization check of callPrivate runs before the
connection check, so the call fails with Not authorized instead. -/
theorem c4_counterexample_close_path :
    (onSocketClose stAuthOpen (JSVal.str ("going away"))).1.socketOpen = false
    ∧ callPrivate (onSocketClose stAuthOpen (JSVal.str ("going away"))).1
        0 ("get_balance") JSVal.undef
        = ((onSocketClose stAuthOpen (JSVal.str ("going away"))).1, [],
           Except.error ("Not authorized"))
    ∧ (Except.error ("Not authorized") : Except String String)
        ≠ Except.error ("Not connected") := by
  refine ⟨rfl, rfl, ?_⟩
  intro h
  exact absurd (Except.error.inj h) (by decide)

/-- C4 amended: while the transport is not open, the shared request path
and callPublic fail with Not connected, and callPrivate fails with Not
connected when the session is still marked authorized, which is what the
error path leaves behind; but since the authorization check precedes the
connection check, callPrivate on an unauthorized session fails with Not
authorized, which is what the close path leaves behind because it clears
the authorized flag while the error path keeps it. -/
theorem c4_not_open_amended (st : ClientState) (now : Nat) (method : String)
    (params e : JSVal) :
    (st.socketOpen = false →
        callRequest st now method params = (st, [], Except.error ("Not connected")))
    ∧ (st.socketOpen = false → st.isPublicClient = true →
        callPublic st now method params = (st, [], Except.error ("Not connected")))
    ∧ (st.socketOpen = false → st.isPublicClient = false → st.isAuthorized = true →
        callPrivate st now method params = (st, [], Except.error ("Not connected")))
    ∧ (st.isPublicClient = false → st.isAuthorized = false →
        callPrivate st now method params = (st, [], Except.error ("Not authorized")))
    ∧ (onSocketClose st e).1.isAuthorized = false
    ∧ (onSocketError st e).1.isAuthorized = st.isAuthorized
    ∧ (onSocketClose st e).1.socketOpen = false
    ∧ (onSocketError st e).1.socketOpen = false := by
  refine ⟨?_, ?_, ?_, ?_, ?_, ?_, ?_, ?_⟩
  · intro h; simp [callRequest, h]
  · intro h hp; simp [callPublic, callRequest, h, hp]
  · intro h hp ha; simp [callPrivate, callRequest, h, hp, ha]
  · intro hp ha; simp [callPrivate, hp, ha]
  · show (cancelAllLoop _ _ e).1.isAuthorized = false
    rw [cancelAllLoop_isAuthorized]
  · show (cancelAllLoop _ _ e).1.isAuthorized = st.isAuthorized
    rw [cancelAllLoop_isAuthorized]
  · show (cancelAllLoop _ _ e).1.socketOpen = false
    rw [cancelAllLoop_socketOpen]
  · show (cancelAllLoop _ _ e).1.socketOpen = false
    rw [cancelAllLoop_socketOpen]

theorem c4_witness :
    callPublic { isPublicClient := true } 1 ("get_ticker") JSVal.objNil
      = ({ isPublicClient := true }, [], Except.error ("Not connected"))
    ∧ callPrivate { isAuthorized := true } 1 ("get_balance") JSVal.objNil
      = ({ isAuthorized := true }, [], Except.error ("Not connected"))
    ∧ callPrivate {} 1 ("get_balance") JSVal.objNil
      = ({}, [], Except.error ("Not authorized")) := by
  have h1 := c4_not_open_amended { isPublicClient := true } 1 ("get_ticker")
    JSVal.objNil JSVal.undef
  have h2 := c4_not_open_amended { isAuthorized := true } 1 ("get_balance")
    JSVal.objNil JSVal.undef
  have h3 := c4_not_open_amended {} 1 ("get_balance") JSVal.objNil JSVal.undef
  exact ⟨h1.2.1 rfl rfl, h2.2.2.1 rfl rfl rfl, h3.2.2.2.1 rfl rfl⟩

/-- A client with one pending call named x and its armed timer. -/
def stX : ClientState :=
  { waitForResp := ["x"], waitTimers := [("x", true)], socketOpen := true }

/-- The failing reply of the C5 counterexample: ok is the string error
and the payload is the object carrying error boom. -/
def mErrReply : Frame :=
  { oid := JSVal.str ("x"), ok := JSVal.str ("error"),
    data := JSVal.objCons ("error") (JSVal.str ("boom")) JSVal.objNil }

/-- C5 counterexample: on a non-ok correlated reply the code rejects the
pending call with the error field of the payload, not with the payload
itself as the claim states. -/
theorem c5_counterexample_reject_value :
    (handleOidReply stX mErrReply).2
      = [Effect.settle ("x") (Settle.rejected (Rejection.value (JSVal.str ("boom"))))]
    ∧ (handleOidReply stX mErrReply).2
      ≠ [Effect.settle ("x") (Settle.rejected (Rejection.value mErrReply.data))] := by
  refine ⟨rfl, ?_⟩
  decide

/-- C5 amended: routing a correlated reply whose oid is registered
removes the entry, disarms its timer, and settles the call with the
payload when ok is the string ok and otherwise rejects it with the error
field of the payload. -/
theorem c5_reply_settles_pending_call (st : ClientState) (m : Frame)
    (hmem : jsToStr m.oid ∈ st.waitForResp) (hnd : st.waitForResp.Nodup) :
    handleOidReply st m
      = ({ st with waitForResp := st.waitForResp.erase (jsToStr m.oid),
                   waitTimers := clearTimer st.waitTimers (jsToStr m.oid) },
         [Effect.settle (jsToStr m.oid)
           (if m.ok = JSVal.str ("ok") then Settle.resolved m.data
            else Settle.rejected (Rejection.value (jsGet m.data ("error"))))])
    ∧ ¬ timerArmed (handleOidReply st m).1 (jsToStr m.oid)
    ∧ jsToStr m.oid ∉ (handleOidReply st m).1.waitForResp := by
  have hmain : handleOidReply st m
      = ({ st with waitForResp := st.waitForResp.erase (jsToStr m.oid),
                   waitTimers := clearTimer st.waitTimers (jsToStr m.oid) },
         [Effect.settle (jsToStr m.oid)
           (if m.ok = JSVal.str ("ok") then Settle.resolved m.data
            else Settle.rejected (Rejection.value (jsGet m.data ("error"))))]) := by
    by_cases hok : m.ok = JSVal.str ("ok")
    · simp [handleOidReply, hmem, hok]
    · simp [handleOidReply, hmem, hok]
  refine ⟨hmain, ?_, ?_⟩
  · rw [hmain]
    exact clearTimer_self_not_armed st.waitTimers (jsToStr m.oid)
  · rw [hmain]
    exact hnd.not_mem_erase

/-- The client state of the get_ticker scenario, one pending call. -/
def stTick : ClientState :=
  { waitForResp := ["20_get_ticker"], waitTimers := [("20_get_ticker", true)],
    socketOpen := true }

/-- The ok reply of the get_ticker scenario, carrying price 100. -/
def mTickReply : Frame :=
  { oid := JSVal.str ("20_get_ticker"), ok := JSVal.str ("ok"),
    data := JSVal.objCons ("price") (JSVal.num 100) JSVal.objNil }

theorem c5_witness :
    handleOidReply stTick mTickReply
      = ({ stTick with waitForResp := [],
                       waitTimers := [("20_get_ticker", false)] },
         [Effect.settle ("20_get_ticker") (Settle.resolved
           (JSVal.objCons ("price") (JSVal.num 100) JSVal.objNil))]) := by
  have h := (c5_reply_settles_pending_call stTick mTickReply (by decide) (by decide)).1
  exact h.trans (by decide)

/-- C6 counterexample: a public client never completes a handshake, yet
callPrivate on it rejects with the wrong-client error, not with Not
authorized as the claim states for every callPrivate invocation. -/
theorem c6_counterexample_public_client :
    (mkClient [JSVal.objNil]).isAuthorized = false
    ∧ callPrivate (mkClient [JSVal.objNil]) 0 ("get_balance") JSVal.undef
        = (mkClient [JSVal.objNil], [],
           Except.error ("Attempt to call private method on public client"))
    ∧ (Except.error ("Attempt to call private method on public client")
        : Except String String) ≠ Except.error ("Not authorized") := by
  refine ⟨rfl, rfl, ?_⟩
  intro h
  exact absurd (Except.error.inj h) (by decide)

/-- C6 amended: on a private client, callPrivate before a successful
handshake rejects with Not authorized, leaving the state unchanged and
producing no effect, so no frame is sent and no registry entry or timer
is created; on a public client it instead rejects with the wrong-client
error, likewise without sending anything. -/
theorem c6_unauthorized_rejects_without_send (st : ClientState) (now : Nat)
    (method : String) (params : JSVal) :
    (st.isPublicClient = false → st.isAuthorized = false →
        callPrivate st now method params = (st, [], Except.error ("Not authorized")))
    ∧ (st.isPublicClient = true →
        callPrivate st now method params
          = (st, [], Except.error ("Attempt to call private method on public client"))) := by
  constructor
  · intro hp ha; simp [callPrivate, hp, ha]
  · intro hp; simp [callPrivate, hp]

theorem c6_witness :
    callPrivate {} 2 ("get_balance") JSVal.objNil
      = ({}, [], Except.error ("Not authorized"))
    ∧ callPrivate (mkClient [JSVal.objNil]) 2 ("get_balance") JSVal.objNil
      = (mkClient [JSVal.objNil], [],
         Except.error ("Attempt to call private method on public client")) := by
  have h1 := c6_unauthorized_rejects_without_send {} 2 ("get_balance") JSVal.objNil
  have h2 := c6_unauthorized_rejects_without_send (mkClient [JSVal.objNil]) 2
    ("get_balance") JSVal.objNil
  exact ⟨h1.1 rfl rfl, h2.2 rfl⟩

/-- C7: routing precedence of handleMessage. A frame whose event name
has a registered handler goes to that handler only, leaving the state
untouched even when the frame also carries an oid; otherwise a frame
with a truthy oid goes to handleOidReply; otherwise a pong is dropped
with no further effect; any remaining frame is logged and dropped. A
reply whose oid is not registered is a logged no-op that leaves the
whole state unchanged, so it cannot throw or touch other pending
calls. -/
theorem c7_routing_precedence (st : ClientState) (m : Frame) :
    (jsToStr m.e ∈ st.handlers →
       handleMessage st m
         = (st, [Effect.log ("incoming message:"),
                 Effect.invokeHandler (jsToStr m.e) m]))
    ∧ (jsToStr m.e ∉ st.handlers → isTruthy m.oid = true →
       handleMessage st m
         = ((handleOidReply st m).1,
            Effect.log ("incoming message:") :: (handleOidReply st m).2))
    ∧ (jsToStr m.e ∉ st.handlers → isTruthy m.oid = false →
        m.e = JSVal.str ("pong") →
       handleMessage st m = (st, [Effect.log ("incoming message:")]))
    ∧ (jsToStr m.e ∉ st.handlers → isTruthy m.oid = false →
        m.e ≠ JSVal.str ("pong") →
       handleMessage st m
         = (st, [Effect.log ("incoming message:"),
                 Effect.log ("Ignoring ws message because of unknown message format")]))
    ∧ (jsToStr m.oid ∉ st.waitForResp →
       handleOidReply st m
         = (st, [Effect.log
             ("Got message from server with oid but without handler on client side.")])) := by
  refine ⟨?_, ?_, ?_, ?_, ?_⟩
  · intro h; simp [handleMessage, h]
  · intro h1 h2; simp [handleMessage, h1, h2]
  · intro h1 h2 h3
    have h1' : jsToStr (JSVal.str ("pong")) ∉ st.handlers := h3 ▸ h1
    simp [handleMessage, h3, h1', h2]
  · intro h1 h2 h3; simp [handleMessage, h1, h2, h3]
  · intro h; rw [handleOidReply, if_neg h]

/-- A client subscribed to executionReport with one pending call z. -/
def stSub : ClientState :=
  { handlers := ["executionReport"], waitForResp := ["z"],
    waitTimers := [("z", true)], socketOpen := true }

/-- A frame carrying both a handled event name and an oid. -/
def mBoth : Frame := { e := JSVal.str ("executionReport"), oid := JSVal.str ("z") }

/-- A bare pong frame. -/
def mPong : Frame := { e := JSVal.str ("pong") }

/-- A frame with an unknown event name and no oid. -/
def mNoise : Frame := { e := JSVal.str ("weird") }

/-- A reply frame for an oid that is not registered. -/
def mStray : Frame := { oid := JSVal.str ("nope"), ok := JSVal.str ("ok") }

theorem c7_witness :
    handleMessage stSub mBoth
      = (stSub, [Effect.log ("incoming message:"),
                 Effect.invokeHandler ("executionReport") mBoth])
    ∧ handleMessage stSub mPong = (stSub, [Effect.log ("incoming message:")])
    ∧ handleMessage stSub mNoise
      = (stSub, [Effect.log ("incoming message:"),
                 Effect.log ("Ignoring ws message because of unknown message format")])
    ∧ handleOidReply stSub mStray
      = (stSub, [Effect.log
          ("Got message from server with oid but without handler on client side.")])
    ∧ handleMessage stSub mStray
      = ((handleOidReply stSub mStray).1,
         Effect.log ("incoming message:") :: (handleOidReply stSub mStray).2) := by
  have h1 := c7_routing_precedence stSub mBoth
  have h2 := c7_routing_precedence stSub mPong
  have h3 := c7_routing_precedence stSub mNoise
  have h4 := c7_routing_precedence stSub mStray
  refine ⟨h1.1 (by decide), h2.2.2.1 (by decide) (by decide) rfl,
    ?_, h4.2.2.2.2 (by decide), h4.2.1 (by decide) (by decide)⟩
  have hne : mNoise.e ≠ JSVal.str ("pong") := by decide
  exact h3.2.2.2.1 (by decide) (by decide) hne

/-- C8: the auth handshake. The signature is the abstracted hex
HMAC-SHA256 keyed by the secret over the timestamp rendering followed by
the api key; on an open socket the auth method registers the auth
handler and sends the frame with e auth, the auth object holding key,
signature and timestamp, and oid auth; the reply handler marks the
session authorized and resolves connect when data.ok is the string ok,
and otherwise rejects connect with the server error message, leaving the
state, and so the authorized flag, unchanged. -/
theorem c8_auth_handshake (hm : String → String → String) (st : ClientState)
    (tsv : JSVal) (authRes : Frame) :
    createSignature hm st (jsToStr tsv) = hm st.apiSecret (jsToStr tsv ++ st.apiKey)
    ∧ (st.socketOpen = true →
        authStart hm st tsv
          = ({ st with handlers := addHandler st.handlers ("auth") },
             [Effect.sendFrame (JSVal.objCons ("e") (JSVal.str ("auth"))
               (JSVal.objCons ("auth")
                 (JSVal.objCons ("key") (JSVal.str st.apiKey)
                   (JSVal.objCons ("signature")
                     (JSVal.str (hm st.apiSecret (jsToStr tsv ++ st.apiKey)))
                     (JSVal.objCons ("timestamp") tsv JSVal.objNil)))
                 (JSVal.objCons ("oid") (JSVal.str ("auth")) JSVal.objNil)))]))
    ∧ (jsGet authRes.data ("ok") = JSVal.str ("ok") →
        authReplyHandler st authRes
          = ({ st with isAuthorized := true }, [Effect.connectResolve]))
    ∧ (jsGet authRes.data ("ok") ≠ JSVal.str ("ok") →
        authReplyHandler st authRes
          = (st, [Effect.connectReject (Rejection.jsError
              ("Authorization failure: " ++ jsToStr (jsGet authRes.data ("error"))))])) := by
  refine ⟨rfl, ?_, ?_, ?_⟩
  · intro h
    simp [authStart, h, authFrame, createSignature]
  · intro h
    simp [authReplyHandler, h, isTruthy]
  · intro h
    unfold authReplyHandler
    rw [if_neg (fun hc => h hc.2)]

/-- An abstract stand-in for the hex HMAC-SHA256, injective on its
inputs, used to instantiate the handshake theorem. -/
def hmacProbe (key msg : String) : String := key ++ ":" ++ msg

/-- A private client with credentials on an open socket. -/
def stCred : ClientState :=
  { apiKey := "KEY", apiSecret := "SECRET", socketOpen := true }

/-- The successful auth reply. -/
def mAuthOk : Frame :=
  { e := JSVal.str ("auth"),
    data := JSVal.objCons ("ok") (JSVal.str ("ok")) JSVal.objNil }

/-- The failed auth reply of the bad signature scenario. -/
def mAuthBad : Frame :=
  { e := JSVal.str ("auth"),
    data := JSVal.objCons ("ok") (JSVal.str ("error"))
      (JSVal.objCons ("error") (JSVal.str ("bad signature")) JSVal.objNil) }

theorem c8_witness :
    authReplyHandler stCred mAuthOk
      = ({ stCred with isAuthorized := true }, [Effect.connectResolve])
    ∧ authReplyHandler stCred mAuthBad
      = (stCred, [Effect.connectReject
          (Rejection.jsError ("Authorization failure: bad signature"))])
    ∧ authStart hmacProbe stCred (JSVal.num 1700000000)
      = ({ stCred with handlers := ["auth"] },
         [Effect.sendFrame (JSVal.objCons ("e") (JSVal.str ("auth"))
           (JSVal.objCons ("auth")
             (JSVal.objCons ("key") (JSVal.str ("KEY"))
               (JSVal.objCons ("signature") (JSVal.str ("SECRET:1700000000KEY"))
                 (JSVal.objCons ("timestamp") (JSVal.num 1700000000) JSVal.objNil)))
             (JSVal.objCons ("oid") (JSVal.str ("auth")) JSVal.objNil)))]) := by
  have h1 := c8_auth_handshake hmacProbe stCred (JSVal.num 1700000000) mAuthOk
  have h2 := c8_auth_handshake hmacProbe stCred (JSVal.num 1700000000) mAuthBad
  refine ⟨h1.2.2.1 rfl, ?_, ?_⟩
  · exact (h2.2.2.2 (by decide)).trans (by decide)
  · exact (h1.2.1 rfl).trans (by decide)

lemma handleOidReply_timerKeys (st : ClientState) (m : Frame) :
    timerKeys (handleOidReply st m).1 = timerKeys st := by
  by_cases h : jsToStr m.oid ∈ st.waitForResp
  · by_cases hok : m.ok = JSVal.str ("ok") <;>
      simp [handleOidReply, h, hok, timerKeys, clearTimer_map_fst]
  · simp [handleOidReply, h]

lemma cancelOidReply_timerKeys (st : ClientState) (oid reason : String) :
    timerKeys (cancelOidReply st oid reason).1 = timerKeys st := by
  by_cases hm : oid ∈ st.waitForResp <;>
    by_cases hk : (lookupTimer st.waitTimers oid).isSome <;>
      simp [cancelOidReply, hm, hk, timerKeys, clearTimer_map_fst]

lemma handleMessage_timerKeys (st : ClientState) (m : Frame) :
    timerKeys (handleMessage st m).1 = timerKeys st := by
  by_cases h1 : jsToStr m.e ∈ st.handlers
  · simp [handleMessage, h1]
  · by_cases h2 : isTruthy m.oid
    · simp [handleMessage, h1, h2, handleOidReply_timerKeys]
    · by_cases h3 : m.e = JSVal.str ("pong")
      · have h1' : jsToStr (JSVal.str ("pong")) ∉ st.handlers := h3 ▸ h1
        simp [handleMessage, h3, h1', h2]
      · simp [handleMessage, h1, h2, h3]

lemma callRequest_timerKeys (st : ClientState) (now : Nat) (method : String)
    (params : JSVal) (k : String) (hk : k ∈ timerKeys st) :
    k ∈ timerKeys (callRequest st now method params).1 := by
  by_cases h : st.socketOpen = false
  · simpa [callRequest, h] using hk
  · rw [show (callRequest st now method params).1
        = { st with oidSeqId := st.oidSeqId + 1,
                    waitForResp := st.waitForResp
                      ++ [toString now ++ toString (st.oidSeqId + 1) ++ "_" ++ method],
                    waitTimers := setTimer st.waitTimers
                      (toString now ++ toString (st.oidSeqId + 1) ++ "_" ++ method) } from by
      simp [callRequest, h]]
    exact setTimer_map_fst_mem st.waitTimers _ k hk

/-- C9: no entry point of the client removes a key from the timer map:
running any sequence of operations only ever grows its key set, since
resolution, timeout and bulk cancellation clear timers without deleting
their keys and only callRequest inserts. -/
theorem c9_timer_keys_monotone (hm : String → String → String)
    (st : ClientState) (ops : List Op) :
    ∀ k, k ∈ timerKeys st → k ∈ timerKeys (runOps hm st ops) := by
  induction ops generalizing st with
  | nil => intro k hk; exact hk
  | cons op rest ih =>
      intro k hk
      refine ih (step hm st op) k ?_
      cases op with
      | request now method params => exact callRequest_timerKeys st now method params k hk
      | publicCall now method params =>
          show k ∈ timerKeys (callPublic st now method params).1
          by_cases hp : st.isPublicClient = false
          · simpa [callPublic, hp] using hk
          · rw [show (callPublic st now method params).1
                = (callRequest st now method params).1 from by simp [callPublic, hp]]
            exact callRequest_timerKeys st now method params k hk
      | privateCall now method params =>
          show k ∈ timerKeys (callPrivate st now method params).1
          by_cases hp : st.isPublicClient = true
          · simpa [callPrivate, hp] using hk
          · by_cases ha : st.isAuthorized = false
            · simpa [callPrivate, hp, ha] using hk
            · rw [show (callPrivate st now method params).1
                  = (callRequest st now method params).1 from by simp [callPrivate, hp, ha]]
              exact callRequest_timerKeys st now method params k hk
      | inbound m =>
          show k ∈ timerKeys (handleMessage st m).1
          rw [handleMessage_timerKeys]; exact hk
      | timer oid =>
          show k ∈ timerKeys (cancelOidReply st oid ("request timeout")).1
          rw [cancelOidReply_timerKeys]; exact hk
      | sockClose e =>
          show k ∈ timerKeys (onSocketClose st e).1
          have := cancelAllLoop_timerKeys
            ({ st with socketOpen := false, isAuthorized := false } : ClientState).waitForResp
            { st with socketOpen := false, isAuthorized := false } e
          simpa [onSocketClose, cancelAllOidReplies, timerKeys, this] using hk
      | sockError e =>
          show k ∈ timerKeys (onSocketError st e).1
          have := cancelAllLoop_timerKeys
            ({ st with socketOpen := false } : ClientState).waitForResp
            { st with socketOpen := false } e
          simpa [onSocketError, cancelAllOidReplies, timerKeys, this] using hk
      | sendErr oid e =>
          show k ∈ timerKeys (sendErrCallback st oid e).1
          by_cases h : isTruthy e
          · by_cases h2 : oid ∈ st.waitForResp.erase oid <;>
              simpa [sendErrCallback, h, h2, timerKeys] using hk
          · simpa [sendErrCallback, h] using hk
      | subscribeEv ev => simpa [subscribeOp, timerKeys] using hk
      | authSend tsv =>
          show k ∈ timerKeys (authStart hm st tsv).1
          by_cases h : st.socketOpen = false <;>
            simpa [authStart, h, timerKeys] using hk
      | authReply m =>
          show k ∈ timerKeys (authReplyHandler st m).1
          by_cases h : isTruthy (jsGet m.data ("ok")) = true
              ∧ jsGet m.data ("ok") = JSVal.str ("ok") <;>
            simpa [authReplyHandler, h, timerKeys] using hk
      | disconnectedEv =>
          show k ∈ timerKeys (onDisconnectedEvent st).1
          have := cancelAllLoop_timerKeys
            ({ st with isAuthorized := false } : ClientState).waitForResp
            { st with isAuthorized := false } (JSVal.str ("disconnected from server"))
          simpa [onDisconnectedEvent, cancelAllOidReplies, timerKeys, this] using hk
      | pingOp => exact hk

theorem c9_witness :
    "18_a" ∈ timerKeys (runOps (fun _ msg => msg) stTwo
      [Op.timer ("18_a"),
       Op.inbound { oid := JSVal.str ("19_b"), ok := JSVal.str ("ok") },
       Op.sockClose JSVal.undef]) := by
  exact c9_timer_keys_monotone (fun _ msg => msg) stTwo
    [Op.timer ("18_a"),
     Op.inbound { oid := JSVal.str ("19_b"), ok := JSVal.str ("ok") },
     Op.sockClose JSVal.undef] ("18_a") (by decide)

/-- C10: the constructor makes the client public exactly when invoked
with one argument, and that argument is then taken as the options value
whatever it is; with any other arity, zero arguments and the
credentialled forms included, the client is private and callPublic on it
rejects with the wrong-client error, unchanged state and no effects, so
nothing is sent. -/
theorem c10_public_iff_one_argument (args : List JSVal) (now : Nat)
    (method : String) (params : JSVal) :
    ((mkClient args).isPublicClient = true ↔ args.length = 1)
    ∧ (args.length = 1 → ctorOptions args = args.getD 0 JSVal.undef)
    ∧ (args.length ≠ 1 → (mkClient args).isPublicClient = false)
    ∧ (args.length ≠ 1 →
        callPublic (mkClient args) now method params
          = (mkClient args, [],
             Except.error ("Attempt to call public method on private client"))) := by
  refine ⟨?_, ?_, ?_, ?_⟩
  · simp [mkClient]
  · intro h; simp [ctorOptions, h]
  · intro h; simp [mkClient, h]
  · intro h
    have hp : (mkClient args).isPublicClient = false := by simp [mkClient, h]
    simp [callPublic, hp]

theorem c10_witness :
    (mkClient [JSVal.str ("wss://example.test/")]).isPublicClient = true
    ∧ ctorOptions [JSVal.str ("wss://example.test/")] = JSVal.str ("wss://example.test/")
    ∧ (mkClient []).isPublicClient = false
    ∧ callPublic (mkClient []) 5 ("get_ticker") JSVal.objNil
      = (mkClient [], [], Except.error ("Attempt to call public method on private client"))
    ∧ (mkClient [JSVal.str ("key"), JSVal.str ("secret")]).isPublicClient = false := by
  have h1 := c10_public_iff_one_argument [JSVal.str ("wss://example.test/")] 5
    ("get_ticker") JSVal.objNil
  have h2 := c10_public_iff_one_argument ([] : List JSVal) 5 ("get_ticker") JSVal.objNil
  have h3 := c10_public_iff_one_argument [JSVal.str ("key"), JSVal.str ("secret")] 5
    ("get_ticker") JSVal.objNil
  exact ⟨h1.1.mpr rfl, h1.2.1 rfl, h2.2.2.1 (by decide), h2.2.2.2 (by decide),
    h3.2.2.1 (by decide)⟩

end Cexio
